import Mathlib

/-!
Verification of the Sisyphus API test engine (the `apisix` package) against its
natural-language specification.

The Python sources are shallowly embedded: Python dict/list/str/number values
become the `JValue` tree below, machine text becomes `String`/`List Char` with
hand-rolled executable helpers mirroring the Python string builtins used by the
code (`in`, `lower`, `replace`), Python numbers (ints and floats) become exact
fractions (`Frac`), timestamps become fractional epoch-seconds, and fallible
code returns `Except`.  External I/O (HTTP, sleeping, wall clocks) is passed
in as explicit parameters.  Each embedded definition keeps the name of the
Python function or method it translates.  All definitions are structurally
recursive so that every concrete run evaluates inside the kernel.
-/

namespace Apisix

/-! ## Exact fractions

Python's ints and floats, modelled as exact fractions `num / den` with a
positive denominator.  Representations are not normalised; all predicates
compare by cross-multiplication, so the model is exact arithmetic. -/

structure Frac where
  num : Int
  den : Nat := 1
deriving Repr, DecidableEq

namespace Frac

/-- Embed an integer. -/
def ofInt (n : Int) : Frac := ⟨n, 1⟩

/-- Embed a natural number. -/
def ofNat (n : Nat) : Frac := ⟨(n : Int), 1⟩

def add (a b : Frac) : Frac := ⟨a.num * b.den + b.num * a.den, a.den * b.den⟩

def sub (a b : Frac) : Frac := ⟨a.num * b.den - b.num * a.den, a.den * b.den⟩

def mul (a b : Frac) : Frac := ⟨a.num * b.num, a.den * b.den⟩

def neg (a : Frac) : Frac := ⟨-a.num, a.den⟩

def abs (a : Frac) : Frac := ⟨|a.num|, a.den⟩

/-- Reciprocal (meaningful only away from zero, which callers guard). -/
def inv (a : Frac) : Frac :=
  if 0 ≤ a.num then ⟨(a.den : Int), a.num.toNat⟩ else ⟨-(a.den : Int), (-a.num).toNat⟩

def div (a b : Frac) : Frac := a.mul b.inv

/-- Strict order by cross-multiplication. -/
def blt (a b : Frac) : Bool := a.num * b.den < b.num * a.den

def ble (a b : Frac) : Bool := a.num * b.den ≤ b.num * a.den

/-- Value equality (Python `==` on numbers). -/
def beq (a b : Frac) : Bool := a.num * b.den == b.num * a.den

/-- Floor to an integer (round toward minus infinity). -/
def floor (a : Frac) : Int := a.num.fdiv a.den

/-- Truncate toward zero (Python `int()` on a float). -/
def trunc (a : Frac) : Int := a.num.tdiv a.den

end Frac

/-! ## String primitives

Python string operations used by the engine, implemented over `List Char`
so that they both evaluate by `decide`/`rfl` and admit abstract reasoning. -/

/-- `isPrefixChars p s` : `p` is a leading segment of `s`. -/
def isPrefixChars : List Char → List Char → Bool
  | [], _ => true
  | _ :: _, [] => false
  | p :: ps, c :: cs => p == c && isPrefixChars ps cs

/-- `isInfixChars pat s` : `pat` occurs contiguously inside `s`
(Python's `pat in s`). -/
def isInfixChars (pat : List Char) : List Char → Bool
  | [] => isPrefixChars pat []
  | c :: cs => isPrefixChars pat (c :: cs) || isInfixChars pat cs

/-- Python's substring test `pat in s`. -/
def containsSub (s pat : String) : Bool :=
  isInfixChars pat.data s.data

/-- Python's `str.lower()` (ASCII case folding suffices for the engine's keys). -/
def pyLower (s : String) : String :=
  ⟨s.data.map Char.toLower⟩

/-- Python's `str.replace(pat, repl)` over char lists: replaces every
occurrence of `pat` (assumed nonempty) left to right.  The fuel argument is
instantiated with the input length, which suffices since every step consumes
at least one character. -/
def replaceCharsAux (pat repl : List Char) : Nat → List Char → List Char
  | 0, l => l
  | _ + 1, [] => []
  | fuel + 1, c :: cs =>
      if isPrefixChars pat (c :: cs) then
        repl ++ replaceCharsAux pat repl fuel (List.drop (pat.length - 1) cs)
      else
        c :: replaceCharsAux pat repl fuel cs

/-- Python's `s.replace(pat, repl)`. -/
def pyReplace (s pat repl : String) : String :=
  ⟨replaceCharsAux pat.data repl.data s.data.length s.data⟩

/-- Python string equality `==`. -/
def pyStrEq (a b : String) : Bool :=
  a.data == b.data

/-- Decimal digits of a natural number, most significant first, with fuel
(`decDigits` instantiates the fuel with the number itself). -/
def decDigitsAux : Nat → Nat → List Nat
  | 0, n => [n]
  | fuel + 1, n => if n < 10 then [n] else decDigitsAux fuel (n / 10) ++ [n % 10]

/-- Decimal digits of a natural number, most significant first
(the characters of Python's `str(n)` for `n ≥ 0`). -/
def decDigits (n : Nat) : List Nat := decDigitsAux n n

/-- Characters of Python's `str(n)` for an integer `n`. -/
def pyIntChars (n : Int) : List Char :=
  if n < 0 then '-' :: (decDigits n.natAbs).map Nat.digitChar
  else (decDigits n.natAbs).map Nat.digitChar

/-- Python's `str(n)` for an integer. -/
def pyIntStr (n : Int) : String :=
  ⟨pyIntChars n⟩

/-- Parse an optional-sign digit string as an integer, Python's strict
`int(s)` (`none` models the raised `ValueError`). -/
def parseIntChars : List Char → Option Int
  | [] => none
  | '-' :: ds =>
      if ds ≠ [] ∧ ds.all Char.isDigit then
        some (-(ds.foldl (fun acc c => acc * 10 + (c.toNat - 48)) 0 : Nat))
      else none
  | ds =>
      if ds ≠ [] ∧ ds.all Char.isDigit then
        some ((ds.foldl (fun acc c => acc * 10 + (c.toNat - 48)) 0 : Nat))
      else none

/-- Parse a decimal string (`"0.05"`) as a fraction, Python's `float(s)`
restricted to plain decimal literals (`none` models the raised `ValueError`). -/
def parseFloatChars (l : List Char) : Option Frac :=
  match l.splitOn '.' with
  | [ds] =>
      (parseIntChars ds).map Frac.ofInt
  | [ds, fs] =>
      if fs ≠ [] ∧ fs.all Char.isDigit then
        (parseIntChars ds).map (fun i =>
          let frac : Frac := ⟨(fs.foldl (fun acc c => acc * 10 + (c.toNat - 48)) 0 : Nat), 10 ^ fs.length⟩
          if i < 0 then (Frac.ofInt i).sub frac else (Frac.ofInt i).add frac)
      else none
  | _ => none

/-- Python's `float(s)` on a string. -/
def pyFloat (s : String) : Option Frac :=
  parseFloatChars s.data

/-- Digits after the decimal point of `q`'s expansion, at most `fuel` places,
stopping once the remainder is zero (used by `pyFloatStr`). -/
def fracDigits : Nat → Frac → List Nat
  | 0, _ => []
  | fuel + 1, q =>
      if q.num == 0 then []
      else
        let q10 := q.mul (Frac.ofNat 10)
        let d := q10.floor
        d.toNat :: fracDigits fuel (q10.sub (Frac.ofInt d))

/-- Python's `str(x)` for a float with a short decimal expansion
(e.g. `0.2 ↦ "0.2"`, `3.0 ↦ "3.0"`); enough for the engine's messages. -/
def pyFloatStr (q : Frac) : String :=
  let sign : List Char := if q.blt (Frac.ofNat 0) then ['-'] else []
  let a := q.abs
  let ip := a.floor.toNat
  let frac := a.sub (Frac.ofInt a.floor)
  let fds := fracDigits 17 frac
  let fchars := if fds = [] then ['0'] else fds.map Nat.digitChar
  ⟨sign ++ (decDigits ip).map Nat.digitChar ++ '.' :: fchars⟩

/-- Python's `f"{x:.2f}"`: fixed two decimal places (round-half-up; the
instances proved about have exact two-digit expansions). -/
def formatF2 (q : Frac) : String :=
  let sign : List Char := if q.blt (Frac.ofNat 0) then ['-'] else []
  let a := q.abs
  let cents := ((a.mul (Frac.ofNat 100)).add ⟨1, 2⟩).floor.toNat
  let ip := cents / 100
  let lo := cents % 100
  ⟨sign ++ (decDigits ip).map Nat.digitChar ++ '.' :: [Nat.digitChar (lo / 10), Nat.digitChar (lo % 10)]⟩

/-! ## Python values

`JValue` models the Python values the engine passes around: `None`, booleans,
numbers (ints and floats, as exact fractions), strings, lists and dicts.
Dicts are insertion-ordered key/value lists, as in Python 3. -/

mutual

inductive JValue where
  | null : JValue
  | bool (b : Bool) : JValue
  | num (q : Frac) : JValue
  | str (s : String) : JValue
  | arr (xs : JArr) : JValue
  | obj (kvs : JObj) : JValue

inductive JArr where
  | nil : JArr
  | cons (hd : JValue) (tl : JArr) : JArr

inductive JObj where
  | nil : JObj
  | cons (key : String) (val : JValue) (tl : JObj) : JObj

end

/-- An integer value (`Python int`). -/
def JValue.int (n : Int) : JValue := .num (Frac.ofInt n)

/-- Build a `JArr` from a list literal. -/
def JArr.ofList : List JValue → JArr
  | [] => .nil
  | v :: rest => .cons v (JArr.ofList rest)

/-- Build a `JObj` from a list literal. -/
def JObj.ofList : List (String × JValue) → JObj
  | [] => .nil
  | (k, v) :: rest => .cons k v (JObj.ofList rest)

/-- First binding of `k` (Python `d[k]` / `d.get(k)`; dict keys are unique). -/
def JObj.get? : JObj → String → Option JValue
  | .nil, _ => none
  | .cons k' v tl, k => if k' == k then some v else JObj.get? tl k

/-- Python `d[k] = v`: overwrite in place if the key exists, else append. -/
def JObj.setKey : JObj → String → JValue → JObj
  | .nil, k, v => .cons k v .nil
  | .cons k' v' tl, k, v =>
      if k' == k then .cons k' v tl else .cons k' v' (JObj.setKey tl k v)

/-- Python `d.update(other)`: fold `setKey` over `other`'s bindings in order. -/
def JObj.update : JObj → JObj → JObj
  | d, .nil => d
  | d, .cons k v tl => JObj.update (d.setKey k v) tl

/-- Number of bindings. -/
def JObj.length : JObj → Nat
  | .nil => 0
  | .cons _ _ tl => 1 + JObj.length tl

/-- Python truthiness of a value (`if x:`). -/
def pyTruthy : JValue → Bool
  | .null => false
  | .bool b => b
  | .num q => !(q.num == 0)
  | .str s => s != ""
  | .arr .nil => false
  | .arr _ => true
  | .obj .nil => false
  | .obj _ => true

/-- Walk a key path through nested objects (used to inspect emitted reports). -/
def getPath : List String → JValue → Option JValue
  | [], v => some v
  | k :: rest, .obj kvs =>
      match kvs.get? k with
      | some v => getPath rest v
      | none => none
  | _ :: _, _ => none

/-- Python's `str(x)` on a scalar value, as Jinja2 interpolation prints it.
Containers never flow into templates in the claims considered; they render
via `repr`, which is not modelled. -/
def pyStrOf : JValue → String
  | .null => "None"
  | .bool true => "True"
  | .bool false => "False"
  | .num q => if q.den = 1 then pyIntStr q.num else pyFloatStr q
  | .str s => s
  | .arr _ => ""
  | .obj _ => ""

/-! ## Template rendering

`core/variable_manager.py` renders with the external Jinja2 library.  The
model below covers the Jinja2 constructs the engine's templates use. -/

/-- Split `l` at the first occurrence of the two-character terminator `a b`;
returns the content before it and the remainder after it. -/
def splitAtSeq (a b : Char) : List Char → List Char × List Char
  | [] => ([], [])
  | [c] => ([c], [])
  | c :: d :: rest =>
      if c == a && d == b then ([], rest)
      else
        let p := splitAtSeq a b (d :: rest)
        (c :: p.1, p.2)

/-- Strip leading and trailing spaces. -/
def trimChars (l : List Char) : List Char :=
  ((l.dropWhile (· == ' ')).reverse.dropWhile (· == ' ')).reverse

/-- Modelled from the spec: the external Jinja2 template engine
(`jinja2.Environment(...).from_string(s).render(**ctx)`), which is a library
dependency, not code under `src/`.  The model covers the two construct
families the engine's templates exercise: expression blocks
`\x7b\x7b name \x7d\x7d`, which print `str(ctx[name])` and print the empty
string for an undefined name (Jinja2's default `Undefined`), and statement
blocks `\x7b% ... %\x7d` of the assignment (`set`) family, which emit no
output.  `fuel` bounds the scan; it is instantiated with the input length,
which suffices since every step consumes at least one character. -/
def jinjaScan (ctx : JObj) : Nat → List Char → List Char
  | 0, l => l
  | _ + 1, [] => []
  | fuel + 1, c :: cs =>
      if c == '\x7b' then
        match cs with
        | d :: rest =>
            if d == '\x7b' then
              let p := splitAtSeq '\x7d' '\x7d' rest
              let name : String := ⟨trimChars p.1⟩
              let value :=
                match ctx.get? name with
                | some v => pyStrOf v
                | none => ""
              value.data ++ jinjaScan ctx fuel p.2
            else if d == '%' then
              let p := splitAtSeq '%' '\x7d' rest
              jinjaScan ctx fuel p.2
            else
              c :: jinjaScan ctx fuel cs
        | [] => [c]
      else
        c :: jinjaScan ctx fuel cs

/-- Render a template string against a context (the Jinja2 model). -/
def jinjaRender (ctx : JObj) (s : String) : String :=
  ⟨jinjaScan ctx s.length s.data⟩

/-! ## VariableManager (`apisix/core/variable_manager.py`) -/

/-- The three variable layers of `VariableManager`. -/
structure VariableManager where
  global_vars : JObj := .nil
  profile_vars : JObj := .nil
  extracted_vars : JObj := .nil

namespace VariableManager

/-- `VariableManager.get_all_variables`: merged copy, extracted > profile >
global (`dict.update` applied twice). -/
def get_all_variables (m : VariableManager) : JObj :=
  (m.global_vars.update m.profile_vars).update m.extracted_vars

/-- `VariableManager.render_string`: non-strings are returned unchanged; a
string without template syntax (`\x7b\x7b` or `\x7b%`) is returned by the
quick check; otherwise the string is rendered through Jinja2. -/
def render_string (m : VariableManager) (template_str : JValue) : JValue :=
  match template_str with
  | .str s =>
      if !(containsSub s "\x7b\x7b") && !(containsSub s "\x7b%") then .str s
      else .str (jinjaRender m.get_all_variables s)
  | v => v

end VariableManager

/-- Modelled from the spec: `render_template` of `apisix/utils/template.py`,
which is imported by the executors but absent from `src/`.  Per §4.1 it
expands every `\x7b\x7bexpression\x7d\x7d` occurrence against the context,
with unknown names resolving to the empty string; plain text is returned
unchanged.  The Jinja2 scan above implements exactly that contract. -/
def render_template (template : String) (ctx : JObj) : String :=
  jinjaRender ctx template

/-! ## Data models (`apisix/core/models.py`) -/

/-- `ErrorCategory` enum. -/
inductive ErrorCategory where
  | assertion
  | network
  | timeout
  | parsing
  | business
  | system
deriving Repr, DecidableEq

/-- `.value` of an `ErrorCategory` member. -/
def ErrorCategory.value : ErrorCategory → String
  | .assertion => "assertion"
  | .network => "network"
  | .timeout => "timeout"
  | .parsing => "parsing"
  | .business => "business"
  | .system => "system"

/-- `ErrorInfo` dataclass. -/
structure ErrorInfo where
  type : String
  category : ErrorCategory
  message : String
  suggestion : String := ""
  stack_trace : String := ""
deriving Repr, DecidableEq

/-- `PerformanceMetrics` dataclass (times in milliseconds). -/
structure PerformanceMetrics where
  total_time : Frac := Frac.ofNat 0
  dns_time : Frac := Frac.ofNat 0
  tcp_time : Frac := Frac.ofNat 0
  tls_time : Frac := Frac.ofNat 0
  server_time : Frac := Frac.ofNat 0
  download_time : Frac := Frac.ofNat 0
  upload_time : Frac := Frac.ofNat 0
  size : Int := 0
deriving Repr, DecidableEq

/-- `ValidationRule` dataclass. -/
structure ValidationRule where
  type : String
  path : String
  expect : JValue
  description : String := ""

/-- `Extractor` dataclass. -/
structure Extractor where
  name : String
  type : String
  path : String
  index : Int := 0

/-- `TestStep` dataclass.  Timeouts and wait durations are fractions of a
second (Python ints/floats). -/
structure TestStep where
  name : String
  type : String
  method : Option String := none
  url : Option String := none
  params : Option JObj := none
  headers : Option JObj := none
  body : Option JValue := none
  validations : List ValidationRule := []
  extractors : List Extractor := []
  skip_if : Option String := none
  only_if : Option String := none
  depends_on : List String := []
  timeout : Option Frac := none
  retry_times : Option Nat := none
  setup : Option JObj := none
  teardown : Option JObj := none
  database : Option JObj := none
  operation : Option String := none
  sql : Option String := none
  seconds : Option JValue := none
  condition : Option String := none
  interval : Option JValue := none
  max_wait : Option JValue := none
  loop_type : Option String := none
  loop_count : Option Nat := none
  loop_condition : Option String := none
  loop_variable : Option String := none
  loop_steps : Option (List JObj) := none

/-- `ProfileConfig` dataclass. -/
structure ProfileConfig where
  base_url : String
  «variables» : JObj := .nil
  timeout : Frac := Frac.ofNat 30
  verify_ssl : Bool := true

/-- `GlobalConfig` dataclass. -/
structure GlobalConfig where
  name : String
  description : String := ""
  profiles : List (String × ProfileConfig) := []
  active_profile : Option String := none
  «variables» : JObj := .nil
  timeout : Frac := Frac.ofNat 30
  retry_times : Nat := 0
  concurrent : Bool := false
  concurrent_threads : Nat := 3
  data_source : Option JObj := none
  data_iterations : Bool := false
  variable_prefix : String := ""

/-- `TestCase` dataclass. -/
structure TestCase where
  name : String
  description : String := ""
  config : Option GlobalConfig := none
  steps : List TestStep := []
  setup : Option JObj := none
  teardown : Option JObj := none
  tags : List String := []
  enabled : Bool := true

/-- The dict produced by `VariableManager.snapshot()` (keys `global`,
`profile`, `extracted`); always truthy since the three keys are present. -/
structure VarSnapshot where
  global_vars : JObj := .nil
  profile_vars : JObj := .nil
  extracted_vars : JObj := .nil

/-- `StepResult` dataclass.  Timestamps are fractional epoch-seconds. -/
structure StepResult where
  name : String
  status : String
  response : Option JValue := none
  extracted_vars : JObj := .nil
  validation_results : List JValue := []
  performance : Option PerformanceMetrics := none
  error_info : Option ErrorInfo := none
  start_time : Option Frac := none
  end_time : Option Frac := none
  retry_count : Nat := 0
  variables_snapshot : Option VarSnapshot := none

/-- `TestCaseResult` dataclass. -/
structure TestCaseResult where
  name : String
  status : String
  start_time : Frac
  end_time : Frac
  duration : Frac
  total_steps : Nat
  passed_steps : Nat
  failed_steps : Nat
  skipped_steps : Nat
  step_results : List StepResult := []
  final_variables : JObj := .nil
  error_info : Option ErrorInfo := none

/-! ## Comparators (`apisix/validation/comparators.py`) -/

/-- The comparison functions defined as static methods on the `Comparators`
class, one constructor per method, in source order.  The membership
comparators are named `in_list` and `not_in_list` in the class body. -/
inductive Comparator where
  | eq
  | ne
  | gt
  | lt
  | ge
  | le
  | contains
  | not_contains
  | regex
  | type
  | in_list
  | not_in_list
  | length_eq
  | length_gt
  | length_lt
  | is_empty
  | is_null
  | status_code
  | exists_
  | between
deriving Repr, DecidableEq

/-- `get_comparator`: `getattr(Comparators, name, None)` resolves exactly the
static-method names of the class body (the Lean name `exists_` stands for the
Python method `exists`); any other name yields `None` and raises
`ComparatorError` with the shown message.  (CPython's `getattr` would also
resolve attributes inherited from `object`, such as dunder names; none of
those are comparator names and the catalogue claims are judged on the
method set.) -/
def get_comparator (name : String) : Except String Comparator :=
  match name with
  | "eq" => .ok .eq
  | "ne" => .ok .ne
  | "gt" => .ok .gt
  | "lt" => .ok .lt
  | "ge" => .ok .ge
  | "le" => .ok .le
  | "contains" => .ok .contains
  | "not_contains" => .ok .not_contains
  | "regex" => .ok .regex
  | "type" => .ok .type
  | "in_list" => .ok .in_list
  | "not_in_list" => .ok .not_in_list
  | "length_eq" => .ok .length_eq
  | "length_gt" => .ok .length_gt
  | "length_lt" => .ok .length_lt
  | "is_empty" => .ok .is_empty
  | "is_null" => .ok .is_null
  | "status_code" => .ok .status_code
  | "exists" => .ok .exists_
  | "between" => .ok .between
  | _ => .error ("Unknown comparator: " ++ name)

namespace Comparators

/-- Python's `int(x)` as used by `Comparators.status_code`: ints are
returned as-is, floats truncate toward zero, booleans map to 0/1, strings
parse as integer literals; `none` models the raised
`ValueError`/`TypeError`. -/
def pyInt : JValue → Option Int
  | .num q => some q.trunc
  | .bool b => some (if b then 1 else 0)
  | .str s => parseIntChars s.data
  | _ => none

/-- `Comparators.status_code`: convert `actual` with `int()`, lowercase
`str(expected)`; if the pattern contains `"xx"`, strip every `"xx"` and
compare the remainder with the first character of `str(actual_code)`;
otherwise compare `int(actual) == int(expected)`.  Any conversion failure
is caught and yields `False`. -/
def status_code (actual expected : JValue) : Bool :=
  match pyInt actual with
  | none => false
  | some actual_code =>
      let expected_str := pyLower (pyStrOf expected)
      if containsSub expected_str "xx" then
        let pref := pyReplace expected_str "xx" ""
        let expected_pref : String := ⟨(pyIntChars actual_code).take 1⟩
        pyStrEq pref expected_pref
      else
        match pyInt expected with
        | none => false
        | some e => actual_code == e

end Comparators

/-! ## Result collector (`apisix/result/collector.py`) -/

/-- `ResultCollector.__init__`: masking flag and the default sensitive
patterns. -/
structure ResultCollector where
  mask_sensitive : Bool := true
  sensitive_patterns : List String := ["password", "pwd", "token", "secret", "key", "auth"]

namespace ResultCollector

/-- `any(pattern in key.lower() for pattern in self.sensitive_patterns)`. -/
def isSensitiveKey (c : ResultCollector) (key : String) : Bool :=
  c.sensitive_patterns.any (fun pattern => containsSub (pyLower key) pattern)

/-- The masking loop of `_mask_variables` over the top-level bindings. -/
def maskTopLevel (c : ResultCollector) : JObj → JObj
  | .nil => .nil
  | .cons k v tl =>
      if c.isSensitiveKey k then .cons k (.str "***") (maskTopLevel c tl)
      else .cons k v (maskTopLevel c tl)

/-- `ResultCollector._mask_variables`: masks sensitive keys of the top level
only; values under non-sensitive keys are copied unchanged. -/
def _mask_variables (c : ResultCollector) (vars : JObj) : JObj :=
  if !c.mask_sensitive then vars else maskTopLevel c vars

mutual

/-- `ResultCollector._mask_sensitive_data`: recursively masks dicts and
lists; a sensitive key's whole value is replaced by `"***"`. -/
def _mask_sensitive_data (c : ResultCollector) : JValue → JValue
  | .obj kvs => if !c.mask_sensitive then .obj kvs else .obj (maskObj c kvs)
  | .arr xs => if !c.mask_sensitive then .arr xs else .arr (maskArr c xs)
  | v => v

def maskArr (c : ResultCollector) : JArr → JArr
  | .nil => .nil
  | .cons hd tl => .cons (_mask_sensitive_data c hd) (maskArr c tl)

def maskObj (c : ResultCollector) : JObj → JObj
  | .nil => .nil
  | .cons k v tl =>
      if c.isSensitiveKey k then .cons k (.str "***") (maskObj c tl)
      else .cons k (_mask_sensitive_data c v) (maskObj c tl)

end

/-- Smallest element of a timestamp list (Python `min`). -/
def listMin : List Frac → Option Frac
  | [] => none
  | h :: t => some (t.foldl (fun a b => if b.blt a then b else a) h)

/-- Largest element of a timestamp list (Python `max`). -/
def listMax : List Frac → Option Frac
  | [] => none
  | h :: t => some (t.foldl (fun a b => if a.blt b then b else a) h)

/-- `ResultCollector.collect`: aggregates step results into a
`TestCaseResult`.  `now` stands for `datetime.now()`, used only as the
fallback timestamp when no step carries one. -/
def collect (_c : ResultCollector) (now : Frac) (test_case : TestCase)
    (step_results : List StepResult) : TestCaseResult :=
  let valid_starts := step_results.filterMap (·.start_time)
  let valid_ends := step_results.filterMap (·.end_time)
  let start_time := listMin valid_starts
  let end_time := listMax valid_ends
  let duration :=
    match start_time, end_time with
    | some s, some e => e.sub s
    | _, _ => Frac.ofNat 0
  let total_steps := step_results.length
  let passed_steps := step_results.countP (·.status == "success")
  let failed_steps := step_results.countP (·.status == "failure")
  let skipped_steps := step_results.countP (·.status == "skipped")
  let status :=
    if failed_steps > 0 then "failed"
    else if skipped_steps == total_steps then "skipped"
    else "passed"
  let final_variables := step_results.foldl (fun acc sr => acc.update sr.extracted_vars) .nil
  let error_info :=
    if status == "failed" then
      (step_results.find? (fun sr => sr.status == "failure" && sr.error_info.isSome)).bind (·.error_info)
    else none
  { name := test_case.name
    status := status
    start_time := start_time.getD now
    end_time := end_time.getD now
    duration := duration
    total_steps := total_steps
    passed_steps := passed_steps
    failed_steps := failed_steps
    skipped_steps := skipped_steps
    step_results := step_results
    final_variables := final_variables
    error_info := error_info }

/-- `datetime.isoformat()`.  Timestamps are modelled as fractional
epoch-seconds and their serialised form as the canonical rendering of that
fraction; no claim depends on the textual format. -/
def isoformat (t : Frac) : String :=
  pyIntStr t.num ++ "/" ++ pyIntStr t.den

/-- `ResultCollector._format_error_info`. -/
def _format_error_info (error_info : ErrorInfo) : JValue :=
  .obj (.ofList
    [("type", .str error_info.type),
     ("category", .str error_info.category.value),
     ("message", .str error_info.message),
     ("suggestion", .str error_info.suggestion)])

/-- `round(x, 2)` on performance times.  Modelled as the identity: the
metrics proved about are exact and rounding them is a no-op. -/
def round2 (q : Frac) : Frac := q

/-- `ResultCollector._format_step_result`: base fields, then conditionally
appended sections, in source order.  Python's truthiness gates each
section. -/
def _format_step_result (c : ResultCollector) (step_result : StepResult) : JValue :=
  let base : JObj := .ofList
    [("name", .str step_result.name),
     ("status", .str step_result.status),
     ("start_time", match step_result.start_time with
        | some t => .str (isoformat t)
        | none => .null),
     ("end_time", match step_result.end_time with
        | some t => .str (isoformat t)
        | none => .null),
     ("retry_count", JValue.int step_result.retry_count)]
  let withPerf :=
    match step_result.performance with
    | some p => base.setKey "performance" (.obj (.ofList
        [("total_time", .num (round2 p.total_time)),
         ("dns_time", .num (round2 p.dns_time)),
         ("tcp_time", .num (round2 p.tcp_time)),
         ("tls_time", .num (round2 p.tls_time)),
         ("server_time", .num (round2 p.server_time)),
         ("download_time", .num (round2 p.download_time)),
         ("size", JValue.int p.size)]))
    | none => base
  let withResponse :=
    match step_result.response with
    | some r => if pyTruthy r then withPerf.setKey "response" (c._mask_sensitive_data r) else withPerf
    | none => withPerf
  let withExtracted :=
    if step_result.extracted_vars.length > 0 then
      withResponse.setKey "extracted_vars" (.obj (c._mask_variables step_result.extracted_vars))
    else withResponse
  let withValidations :=
    if step_result.validation_results.length > 0 then
      withExtracted.setKey "validations" (.arr (.ofList step_result.validation_results))
    else withExtracted
  let withError :=
    match step_result.error_info with
    | some e => withValidations.setKey "error_info" (_format_error_info e)
    | none => withValidations
  let withSnapshot :=
    match step_result.variables_snapshot with
    | some snap => withError.setKey "variables_snapshot" (.obj (c._mask_variables snap.extracted_vars))
    | none => withError
  .obj withSnapshot

/-- Serialise the step list. -/
def formatSteps (c : ResultCollector) : List StepResult → JArr
  | [] => .nil
  | sr :: rest => .cons (c._format_step_result sr) (formatSteps c rest)

/-- `ResultCollector.to_v2_json`: the external v2.0 report object, with the
`pass_rate` division guarded on an empty step list and `error_info`
appended last when present. -/
def to_v2_json (c : ResultCollector) (result : TestCaseResult) : JValue :=
  let json_data : JObj := .ofList
    [("test_case", .obj (.ofList
        [("name", .str result.name),
         ("status", .str result.status),
         ("start_time", .str (isoformat result.start_time)),
         ("end_time", .str (isoformat result.end_time)),
         ("duration", .num result.duration)])),
     ("statistics", .obj (.ofList
        [("total_steps", JValue.int result.total_steps),
         ("passed_steps", JValue.int result.passed_steps),
         ("failed_steps", JValue.int result.failed_steps),
         ("skipped_steps", JValue.int result.skipped_steps),
         ("pass_rate",
           .num (if result.total_steps > 0 then
              ((Frac.ofNat result.passed_steps).div (Frac.ofNat result.total_steps)).mul (Frac.ofNat 100)
            else Frac.ofNat 0))])),
     ("steps", .arr (formatSteps c result.step_results)),
     ("final_variables", .obj (c._mask_variables result.final_variables))]
  match result.error_info with
  | some e => .obj (json_data.setKey "error_info" (_format_error_info e))
  | none => .obj json_data

end ResultCollector

/-! ## Step executor base class (`apisix/executor/step_executor.py`)

The abstract `_execute_step` of a concrete executor performs I/O (an HTTP
round trip, a database query, a sleep); it is passed in as a function from
the attempt number to either a raised exception or the attempt's outcome.
Setup/teardown hooks go through `apisix/utils/hooks.py`, which is absent
from `src/`; per the spec they are opaque to the core beyond invocation and
are modelled as succeeding with no effect. -/

/-- A raised Python exception: the class name and `str(e)`. -/
structure PyError where
  type : String
  message : String
deriving Repr, DecidableEq

/-- What a successful `_execute_step` hands back, merged into the
`StepResult` field by field (`extracted_vars` stands for the variables the
step's extractors commit; the extractor sub-language itself is outside the
claims considered). -/
structure StepOutcome where
  response : Option JValue := none
  extracted_vars : JObj := .nil
  performance : Option PerformanceMetrics := none
  validation_results : List JValue := []

/-- Python's `a or b` over an optional number: `None` and `0` both fall back
to the default (`self.timeout = step.timeout or timeout`). -/
def pyOrFrac (a : Option Frac) (b : Frac) : Frac :=
  match a with
  | some t => if t.num == 0 then b else t
  | none => b

/-- Python's `a or b` over an optional count
(`self.retry_times = step.retry_times or retry_times`). -/
def pyOrNat (a : Option Nat) (b : Nat) : Nat :=
  match a with
  | some n => if n == 0 then b else n
  | none => b

/-- The state a `StepExecutor` closes over: the variable manager, the
effective timeout and retry count computed in `__init__`, and the two
`datetime.now()` readings taken during `execute`. -/
structure StepExecutorCtx where
  variable_manager : VariableManager := {}
  timeout : Frac := Frac.ofNat 30
  retry_times : Nat := 0
  now0 : Frac := Frac.ofNat 0
  now1 : Frac := Frac.ofNat 0

namespace StepExecutor

/-- The `skip_if` gate: skip when the rendered condition is truthy. -/
def skipIfPasses (ctx : StepExecutorCtx) (step : TestStep) : Bool :=
  match step.skip_if with
  | some cond =>
      if cond != "" then
        let skip_condition := render_template cond ctx.variable_manager.get_all_variables
        !(skip_condition != "" &&
          (pyLower skip_condition == "true" || pyLower skip_condition == "1" ||
           pyLower skip_condition == "yes"))
      else true
  | none => true

/-- The `only_if` gate: skip when the rendered condition is a nonempty
string outside the truthy set. -/
def onlyIfPasses (ctx : StepExecutorCtx) (step : TestStep) : Bool :=
  match step.only_if with
  | some cond =>
      if cond != "" then
        let only_condition := render_template cond ctx.variable_manager.get_all_variables
        !(only_condition != "" &&
          !(pyLower only_condition == "true" || pyLower only_condition == "1" ||
            pyLower only_condition == "yes"))
      else true
  | none => true

/-- One `depends_on` entry: the first previous result with that name must
exist and have status `success`. -/
def depOk (previous_results : List StepResult) (dep_step_name : String) : Bool :=
  match previous_results.find? (fun r => r.name == dep_step_name) with
  | some r => r.status == "success"
  | none => false

/-- `StepExecutor._should_execute`: `skip_if`, then `only_if`, then every
`depends_on` entry; each check either skips the step or falls through. -/
def _should_execute (ctx : StepExecutorCtx) (step : TestStep)
    (previous_results : List StepResult) : Bool :=
  skipIfPasses ctx step && onlyIfPasses ctx step &&
    step.depends_on.all (depOk previous_results)

/-- `StepExecutor._generate_error_suggestion`: the category → suggestion
table. -/
def _generate_error_suggestion : ErrorCategory → String
  | .assertion => "建议检查预期值设置是否正确，或查看实际响应数据"
  | .network => "建议检查网络连接、URL 地址和端口是否正确"
  | .timeout => "建议增加超时时间配置或检查服务响应速度"
  | .parsing => "建议检查响应数据格式是否与预期一致"
  | .business => "建议检查业务逻辑配置"
  | .system => "建议查看系统日志获取详细信息"

/-- `StepExecutor._create_error_info`: categorise by substring tests on the
exception class name and message (`traceback.format_exc()` is not
modelled). -/
def _create_error_info (e : PyError) : ErrorInfo :=
  let error_type := e.type
  let error_message := e.message
  let category : ErrorCategory :=
    if containsSub error_type "Assertion" || containsSub (pyLower error_message) "validation" then
      .assertion
    else if containsSub (pyLower error_message) "timeout" then
      .timeout
    else if containsSub (pyLower error_message) "connection" || containsSub (pyLower error_message) "network" then
      .network
    else if containsSub (pyLower error_message) "parse" then
      .parsing
    else
      .system
  { type := error_type
    category := category
    message := error_message
    suggestion := _generate_error_suggestion category
    stack_trace := "" }

/-- The retry loop of `StepExecutor.execute`: run attempts until one
succeeds or the retry budget is exhausted; returns the final attempt index
(the recorded `retry_count`) with the outcome or the last exception. -/
def attemptLoop (perform : Nat → Except PyError StepOutcome) :
    Nat → Nat → Except (Nat × PyError) (Nat × StepOutcome)
  | 0, attempt =>
      match perform attempt with
      | .ok o => .ok (attempt, o)
      | .error e => .error (attempt, e)
  | remaining + 1, attempt =>
      match perform attempt with
      | .ok o => .ok (attempt, o)
      | .error _ => attemptLoop perform remaining (attempt + 1)

/-- `StepExecutor.execute`: gate, attempt loop with retries, merge of the
outcome or capture of the final failure.  Every exception is caught; the
method always returns a `StepResult`. -/
def execute (ctx : StepExecutorCtx) (perform : Nat → Except PyError StepOutcome)
    (step : TestStep) (previous_results : List StepResult) : StepResult × VariableManager :=
  let vm := ctx.variable_manager
  let base : StepResult :=
    { name := step.name
      status := "pending"
      start_time := some ctx.now0
      end_time := none
      retry_count := 0
      variables_snapshot := some
        { global_vars := vm.global_vars
          profile_vars := vm.profile_vars
          extracted_vars := vm.extracted_vars } }
  if !(_should_execute ctx step previous_results) then
    ({ base with status := "skipped", end_time := some ctx.now1 }, vm)
  else
    match attemptLoop perform ctx.retry_times 0 with
    | .ok (attempt, outcome) =>
        ({ base with
            status := "success"
            retry_count := attempt
            response := outcome.response
            extracted_vars := outcome.extracted_vars
            performance := outcome.performance
            validation_results := outcome.validation_results
            end_time := some ctx.now1 },
         { vm with extracted_vars := vm.extracted_vars.update outcome.extracted_vars })
    | .error (attempt, e) =>
        ({ base with
            status := "failure"
            retry_count := attempt
            error_info := some (_create_error_info e)
            end_time := some ctx.now1 }, vm)

end StepExecutor

/-! ## Wait executor (`apisix/executor/wait_executor.py`) -/

namespace WaitExecutor

/-- The dict built by `WaitExecutor._render_step`: each configured field is
rendered through `render_template(str(field), context)`. -/
structure RenderedWait where
  seconds : Option String := none
  condition : Option String := none
  interval : Option String := none
  max_wait : Option String := none

/-- `WaitExecutor._render_step`. -/
def _render_step (ctx : StepExecutorCtx) (step : TestStep) : RenderedWait :=
  let context := ctx.variable_manager.get_all_variables
  { seconds := step.seconds.map (fun v => render_template (pyStrOf v) context)
    condition := step.condition.map (fun c => render_template c context)
    interval := step.interval.map (fun v => render_template (pyStrOf v) context)
    max_wait := step.max_wait.map (fun v => render_template (pyStrOf v) context) }

/-- `WaitExecutor._is_condition_true`: empty is false; otherwise the
lowercased, stripped text must be one of the truthy tokens. -/
def _is_condition_true (rendered_condition : String) : Bool :=
  if rendered_condition == "" then false
  else
    let condition_lower : String := ⟨trimChars (pyLower rendered_condition).data⟩
    ["true", "1", "yes", "y", "ok", "success"].contains condition_lower

/-- The poll loop of `_conditional_wait`.  The condition is re-rendered each
iteration against an unchanged environment, so its truth value is constant;
`elapsed` advances by `interval` per sleep.  Returns `none` when the
condition was observed true, or `some poll_count` when `max_wait` elapsed.
The fuel is instantiated large enough that exhaustion is unreachable. -/
def pollLoop (condTrue : Bool) (interval max_wait : Frac) :
    Nat → Frac → Nat → Option Nat
  | 0, _, poll_count => some poll_count
  | fuel + 1, elapsed, poll_count =>
      if elapsed.blt max_wait then
        if condTrue then none
        else pollLoop condTrue interval max_wait fuel (elapsed.add interval) (poll_count + 1)
      else some poll_count

/-- `WaitExecutor._conditional_wait`.  `wallElapsed` stands for the
wall-clock `(datetime.now() - start_time).total_seconds()` read when the
loop finishes; sleeping itself has no observable effect in the model. -/
def _conditional_wait (ctx : StepExecutorCtx) (condition : String)
    (intervalStr max_waitStr : Option String) (wallElapsed : Frac) :
    Except PyError StepOutcome :=
  let intervalRaw : Option Frac :=
    match intervalStr with
    | some s => pyFloat s
    | none => some (Frac.ofNat 1)
  let max_waitRaw : Option Frac :=
    match max_waitStr with
    | some s => pyFloat s
    | none => some (Frac.ofNat 60)
  match intervalRaw, max_waitRaw with
  | some interval, some max_wait =>
      if interval.ble (Frac.ofNat 0) then
        .error ⟨"ValueError", "Polling interval must be positive, got: " ++ pyFloatStr interval⟩
      else if max_wait.ble (Frac.ofNat 0) then
        .error ⟨"ValueError", "Maximum wait time must be positive, got: " ++ pyFloatStr max_wait⟩
      else if ctx.timeout.blt max_wait then
        .error ⟨"ValueError", "Max wait time (" ++ pyFloatStr max_wait ++
          "s) exceeds timeout (" ++ pyFloatStr ctx.timeout ++ "s)"⟩
      else
        let rendered_condition :=
          render_template condition ctx.variable_manager.get_all_variables
        let condTrue := _is_condition_true rendered_condition
        let fuel := ((max_wait.div interval).floor.toNat + 2)
        match pollLoop condTrue interval max_wait fuel (Frac.ofNat 0) 0 with
        | none =>
            .ok { response := some (.obj (.ofList
                    [("wait_type", .str "conditional"),
                     ("condition", .str condition),
                     ("result", .bool true),
                     ("elapsed_seconds", .num wallElapsed),
                     ("poll_count", JValue.int 1)]))
                  performance := some { total_time := wallElapsed.mul (Frac.ofNat 1000) } }
        | some poll_count =>
            .error ⟨"TimeoutError",
              "Condition '" ++ condition ++ "' did not become true within " ++
              pyFloatStr max_wait ++ "s (elapsed: " ++ formatF2 wallElapsed ++
              "s, polls: " ++ pyIntStr poll_count ++ ")"⟩
  | _, _ =>
      .error ⟨"ValueError", "Invalid interval or max_wait value: could not convert string to float"⟩

/-- `WaitExecutor._fixed_wait`. -/
def _fixed_wait (ctx : StepExecutorCtx) (secondsStr : String) (wallElapsed : Frac) :
    Except PyError StepOutcome :=
  match pyFloat secondsStr with
  | none => .error ⟨"ValueError", "Invalid wait seconds value: " ++ secondsStr⟩
  | some wait_seconds =>
      if wait_seconds.blt (Frac.ofNat 0) then
        .error ⟨"ValueError", "Wait seconds must be non-negative, got: " ++ pyFloatStr wait_seconds⟩
      else if ctx.timeout.blt wait_seconds then
        .error ⟨"ValueError", "Wait time (" ++ pyFloatStr wait_seconds ++
          "s) exceeds timeout (" ++ pyFloatStr ctx.timeout ++ "s)"⟩
      else
        .ok { response := some (.obj (.ofList
                [("wait_type", .str "fixed"),
                 ("wait_seconds", .num wait_seconds),
                 ("actual_wait_seconds", .num wallElapsed)]))
              performance := some { total_time := wallElapsed.mul (Frac.ofNat 1000) } }

/-- `WaitExecutor._execute_step`: conditional when the rendered `condition`
is truthy, fixed when the rendered `seconds` is truthy, else a
`ValueError`. -/
def _execute_step (ctx : StepExecutorCtx) (step : TestStep) (wallElapsed : Frac) :
    Except PyError StepOutcome :=
  let rendered := _render_step ctx step
  match rendered.condition with
  | some c =>
      if c != "" then _conditional_wait ctx c rendered.interval rendered.max_wait wallElapsed
      else
        match rendered.seconds with
        | some s =>
            if s != "" then _fixed_wait ctx s wallElapsed
            else .error ⟨"ValueError", "Wait step must have either 'seconds' or 'condition'"⟩
        | none => .error ⟨"ValueError", "Wait step must have either 'seconds' or 'condition'"⟩
  | none =>
      match rendered.seconds with
      | some s =>
          if s != "" then _fixed_wait ctx s wallElapsed
          else .error ⟨"ValueError", "Wait step must have either 'seconds' or 'condition'"⟩
      | none => .error ⟨"ValueError", "Wait step must have either 'seconds' or 'condition'"⟩

end WaitExecutor

/-! ## Test case executor (`apisix/executor/test_case_executor.py`) -/

namespace TestCaseExecutor

/-- The profiles sub-map built by `_initialize_variables`. -/
def profilesMap : List (String × ProfileConfig) → JObj
  | [] => .nil
  | (name, profile) :: rest =>
      .cons name (.obj (.ofList
        [("base_url", .str profile.base_url),
         ("variables", .obj profile.«variables»),
         ("timeout", .num profile.timeout),
         ("verify_ssl", .bool profile.verify_ssl)])) (profilesMap rest)

/-- `TestCaseExecutor._initialize_variables`: inject the `config` mapping,
then layer the config's global variables on top. -/
def _initialize_variables (test_case : TestCase) : JObj :=
  match test_case.config with
  | none => .nil
  | some cfg =>
      let configMap : JObj := .ofList
        [("name", .str cfg.name),
         ("active_profile", match cfg.active_profile with
            | some p => .str p
            | none => .null),
         ("profiles", .obj (profilesMap cfg.profiles)),
         ("variables", .obj cfg.«variables»),
         ("timeout", .num cfg.timeout),
         ("retry_times", JValue.int cfg.retry_times)]
      let base : JObj := .ofList [("config", .obj configMap)]
      match cfg.«variables» with
      | .nil => base
      | vs => base.update vs

/-- `TestCaseExecutor._setup_profile`: layer the active profile's variables
when the profile exists. -/
def _setup_profile (test_case : TestCase) (vm : VariableManager) : VariableManager :=
  match test_case.config with
  | none => vm
  | some cfg =>
      match cfg.active_profile, cfg.profiles with
      | some profile_name, _ :: _ =>
          match (cfg.profiles.find? (fun p => p.1 == profile_name)).map (·.2) with
          | some profile => { vm with profile_vars := profile.«variables» }
          | none => vm
      | _, _ => vm

/-- `TestCaseExecutor._execute_step`: only `request` steps are dispatched
(to `APIExecutor`, whose HTTP round trip is the `performRequest`
parameter); every other step type raises
`ValueError(f"Unsupported step type: ...")`, which nothing in
`TestCaseExecutor.execute` catches.  `previous_results` is not passed to
the constructed executor, so it defaults to the empty list. -/
def _execute_step (performRequest : TestStep → Nat → Except PyError StepOutcome)
    (now0 now1 : Frac) (test_case : TestCase) (vm : VariableManager)
    (step : TestStep) : Except PyError (StepResult × VariableManager) :=
  let timeout := match test_case.config with
    | some cfg => cfg.timeout
    | none => Frac.ofNat 30
  let retry_times := match test_case.config with
    | some cfg => cfg.retry_times
    | none => 0
  if step.type == "request" then
    .ok (StepExecutor.execute
      { variable_manager := vm
        timeout := pyOrFrac step.timeout timeout
        retry_times := pyOrNat step.retry_times retry_times
        now0 := now0
        now1 := now1 }
      (performRequest step) step [])
  else
    .error ⟨"ValueError", "Unsupported step type: " ++ step.type⟩

/-- The step loop of `TestCaseExecutor.execute` (continue-on-failure; a
raised exception aborts the run). -/
def executeSteps (performRequest : TestStep → Nat → Except PyError StepOutcome)
    (now0 now1 : Frac) (test_case : TestCase) (vm : VariableManager) :
    List TestStep → Except PyError (List StepResult)
  | [] => .ok []
  | step :: rest =>
      match _execute_step performRequest now0 now1 test_case vm step with
      | .error e => .error e
      | .ok (step_result, vm') =>
          match executeSteps performRequest now0 now1 test_case vm' rest with
          | .error e => .error e
          | .ok results => .ok (step_result :: results)

/-- `TestCaseExecutor.execute`: initialise variables, set up the profile,
run the steps in order, collect, and serialise.  Global setup/teardown are
unimplemented in the source (`# TODO`). -/
def execute (performRequest : TestStep → Nat → Except PyError StepOutcome)
    (now0 now1 : Frac) (test_case : TestCase) : Except PyError JValue :=
  let vm0 : VariableManager := { global_vars := _initialize_variables test_case }
  let vm := _setup_profile test_case vm0
  match executeSteps performRequest now0 now1 test_case vm test_case.steps with
  | .error e => .error e
  | .ok step_results =>
      let collector : ResultCollector := {}
      .ok (collector.to_v2_json (collector.collect now1 test_case step_results))

end TestCaseExecutor

/-! ## CLI (`apisix/cli.py`) -/

namespace Cli

/-- `main` on the run/execute path (`--validate` not passed): parsing and
execution inside one `try`; `FileNotFoundError` and `YamlParseError` from
parsing return 1, and the final `except Exception` handler returns 1 for
every other raised error; normal completion returns 0 with no look at the
report's contents. -/
def main (parse_result : Except PyError TestCase)
    (performRequest : TestStep → Nat → Except PyError StepOutcome)
    (now0 now1 : Frac) : Int :=
  match parse_result with
  | .error e =>
      if e.type == "FileNotFoundError" then 1
      else if e.type == "YamlParseError" then 1
      else 1
  | .ok test_case =>
      match TestCaseExecutor.execute performRequest now0 now1 test_case with
      | .error _ => 1
      | .ok _result => 0

end Cli

/-! ## Specification-side definitions

Definitions used only to state properties: mathematical notions the spec
appeals to, decidable checkers for masking invariants, and the concrete
inputs of the scenario-level claims. -/

/-- Leading decimal digit of a natural number. -/
def leadingDigit (n : Nat) : Nat :=
  if n < 10 then n else leadingDigit (n / 10)
decreasing_by exact Nat.div_lt_self (by omega) (by omega)

/-- Whether a value is a Python `str`. -/
def isStrVal : JValue → Bool
  | .str _ => true
  | _ => false

mutual

/-- Decidable check: no dict key at any depth whose name matches a sensitive
pattern carries a value other than the literal `"***"`. -/
def noUnmaskedSensitive (c : ResultCollector) : JValue → Bool
  | .obj kvs => noUnmaskedObj c kvs
  | .arr xs => noUnmaskedArr c xs
  | _ => true

def noUnmaskedArr (c : ResultCollector) : JArr → Bool
  | .nil => true
  | .cons hd tl => noUnmaskedSensitive c hd && noUnmaskedArr c tl

def noUnmaskedObj (c : ResultCollector) : JObj → Bool
  | .nil => true
  | .cons k v tl =>
      (if c.isSensitiveKey k then
        (match v with | .str s => s == "***" | _ => false)
      else noUnmaskedSensitive c v) && noUnmaskedObj c tl

end

/-- Decidable check: every top-level binding with a sensitive key carries
exactly `"***"` (deeper bindings are not inspected). -/
def topMaskOk (c : ResultCollector) : JObj → Bool
  | .nil => true
  | .cons k v tl =>
      (if c.isSensitiveKey k then
        (match v with | .str s => s == "***" | _ => false)
      else true) && topMaskOk c tl

/-- Scenario S1: a test case with the single step
`\x7btype: wait, seconds: 0.1\x7d`. -/
def s1TestCase : TestCase :=
  { name := "S1"
    steps := [{ name := "wait step", type := "wait", seconds := some (.num ⟨1, 10⟩) }] }

/-- An HTTP round trip that fails every attempt with a connection error
(the server is unreachable). -/
def failingPerform : TestStep → Nat → Except PyError StepOutcome :=
  fun _ _ => .error ⟨"ConnectionError", "HTTP request failed: connection refused"⟩

/-- A test case with one request step, used to drive the CLI exit-code
claims. -/
def c4TestCase : TestCase :=
  { name := "one request"
    steps := [{ name := "req", type := "request", method := some "GET",
                url := some "http://unreachable.example" }] }

/-- Scenario S6: the executor context for a conditional wait, with
`ready = "false"` among the variables and the default 30-second timeout. -/
def s6Ctx : StepExecutorCtx :=
  { variable_manager := { global_vars := .ofList [("ready", .str "false")] }
    timeout := Frac.ofNat 30 }

/-- Scenario S6: the step
`\x7btype: wait, condition: "\x7b\x7bready\x7d\x7d", interval: 0.05, max_wait: 0.2\x7d`. -/
def s6Step : TestStep :=
  { name := "wait for ready"
    type := "wait"
    condition := some "\x7b\x7bready\x7d\x7d"
    interval := some (.num ⟨5, 100⟩)
    max_wait := some (.num ⟨2, 10⟩) }

/-- The `TimeoutError` message the S6 run produces (wall-clock elapsed read
as exactly 0.2 seconds). -/
def s6Message : String :=
  "Condition 'false' did not become true within 0.2s (elapsed: 0.20s, polls: 4)"

/-- The `StepResult` the S6 conditional wait emits through the step
lifecycle. -/
def s6Result : StepResult :=
  (StepExecutor.execute s6Ctx (fun _ => WaitExecutor._execute_step s6Ctx s6Step ⟨2, 10⟩)
    s6Step []).1

/-- A step result carrying a nested secret inside a non-sensitive top-level
variable, extracted by an otherwise successful step. -/
def nestedSecretStep : StepResult :=
  { name := "s1", status := "success"
    extracted_vars := .ofList [("outer", .obj (.ofList [("password", .str "x")]))] }

/-- The serialised report of the run whose only step is
`nestedSecretStep`. -/
def nestedSecretReport : JValue :=
  ResultCollector.to_v2_json {}
    (ResultCollector.collect {} ⟨0, 1⟩ { name := "C6" } [nestedSecretStep])

/-- An empty test case. -/
def emptyTestCase : TestCase := { name := "empty" }

/-- A gated step: `B` declares `depends_on: [A]`. -/
def stepB : TestStep :=
  { name := "B", type := "request", depends_on := ["A"] }

/-- A prior result for `A` with status `failure`. -/
def resultA : StepResult := { name := "A", status := "failure" }

end Apisix

namespace ApisixProofs

open Apisix

/-! ## Supporting lemmas -/

theorem decDigitsAux_ne_nil (fuel n : Nat) : decDigitsAux fuel n ≠ [] := by
  cases fuel with
  | zero => simp [decDigitsAux]
  | succ f =>
      simp only [decDigitsAux]
      split
      · simp
      · simp

theorem decDigitsAux_head (fuel : Nat) : ∀ n : Nat, n ≤ fuel →
    (decDigitsAux fuel n).head? = some (leadingDigit n) := by
  induction fuel with
  | zero =>
      intro n hn
      have : n = 0 := by omega
      subst this
      rw [leadingDigit]
      simp [decDigitsAux]
  | succ f ih =>
      intro n hn
      rw [leadingDigit]
      simp only [decDigitsAux]
      by_cases h : n < 10
      · simp [h]
      · have hdiv : n / 10 ≤ f := by
          have := Nat.div_lt_self (show 0 < n by omega) (show 1 < 10 by omega)
          omega
        simp only [h, if_false]
        rw [List.head?_append]
        rw [ih (n / 10) hdiv]
        simp

theorem decDigits_take_one (n : Nat) :
    (decDigits n).take 1 = [leadingDigit n] := by
  have h := decDigitsAux_head n n le_rfl
  unfold decDigits
  cases hc : decDigitsAux n n with
  | nil => exact absurd hc (decDigitsAux_ne_nil n n)
  | cons a l =>
      rw [hc] at h
      simp at h
      simp [h]

theorem leadingDigit_lt_ten (n : Nat) : leadingDigit n < 10 := by
  induction n using Nat.strong_induction_on with
  | _ n ih =>
      rw [leadingDigit]
      by_cases h : n < 10
      · rw [if_pos h]; exact h
      · simp only [h, if_false]
        exact ih (n / 10) (Nat.div_lt_self (by omega) (by omega))

theorem digitChar_inj : ∀ a < 10, ∀ b < 10,
    (Nat.digitChar a = Nat.digitChar b ↔ a = b) := by decide

theorem digitChar_toLower : ∀ d < 10, (Nat.digitChar d).toLower = Nat.digitChar d := by decide

theorem digitChar_ne_x : ∀ d < 10, Nat.digitChar d ≠ 'x' := by decide

theorem status_code_wildcard (d : Nat) (hd : d < 10) (n : Nat) :
    Comparators.status_code (JValue.int (n : Int)) (.str ⟨[Nat.digitChar d, 'x', 'x']⟩) = true ↔
      leadingDigit n = d := by
  have hne : (('x' == Nat.digitChar d) : Bool) = false := by
    simp [beq_eq_false_iff_ne]
    exact fun h => digitChar_ne_x d hd h.symm
  have hlow : pyLower ⟨[Nat.digitChar d, 'x', 'x']⟩ = ⟨[Nat.digitChar d, 'x', 'x']⟩ := by
    simp [pyLower, digitChar_toLower d hd]
  have hcontains : containsSub ⟨[Nat.digitChar d, 'x', 'x']⟩ "xx" = true := by
    simp [containsSub, isInfixChars, isPrefixChars, hne]
  have hrepl : pyReplace ⟨[Nat.digitChar d, 'x', 'x']⟩ "xx" "" = ⟨[Nat.digitChar d]⟩ := by
    simp [pyReplace, replaceCharsAux, isPrefixChars, hne]
  have htrunc : ((n : Int).tdiv 1) = (n : Int) := Int.tdiv_one _
  have hchars : pyIntChars (n : Int) = (decDigits n).map Nat.digitChar := by
    simp [pyIntChars, Int.natCast_nonneg, decDigits]
  simp only [Comparators.status_code, Comparators.pyInt, JValue.int, Frac.ofInt, Frac.trunc,
    Nat.cast_one, htrunc, pyStrOf, hlow, hcontains, if_true, hrepl]
  rw [hchars]
  rw [← List.map_take, decDigits_take_one]
  simp only [List.map_cons, List.map_nil, pyStrEq]
  constructor
  · intro h
    simp at h
    exact (digitChar_inj (leadingDigit n) (leadingDigit_lt_ten n) d hd).mp h.symm
  · intro h
    simp [h]

theorem leadingDigit_of_three_digits (n : Nat) (h1 : 100 ≤ n) (h2 : n ≤ 999) :
    leadingDigit n = n / 100 := by
  rw [leadingDigit, if_neg (by omega)]
  rw [leadingDigit, if_neg (by omega : ¬ n / 10 < 10)]
  rw [leadingDigit, if_pos (by omega : n / 10 / 10 < 10)]
  omega

mutual

theorem mask_data_ok (c : ResultCollector) (hc : c.mask_sensitive = true) :
    ∀ v : JValue, noUnmaskedSensitive c (c._mask_sensitive_data v) = true
  | .null => rfl
  | .bool _ => rfl
  | .num _ => rfl
  | .str _ => rfl
  | .arr xs => by
      simp [ResultCollector._mask_sensitive_data, hc, noUnmaskedSensitive,
        mask_arr_ok c hc xs]
  | .obj kvs => by
      simp [ResultCollector._mask_sensitive_data, hc, noUnmaskedSensitive,
        mask_obj_ok c hc kvs]

theorem mask_arr_ok (c : ResultCollector) (hc : c.mask_sensitive = true) :
    ∀ xs : JArr, noUnmaskedArr c (ResultCollector.maskArr c xs) = true
  | .nil => rfl
  | .cons hd tl => by
      simp [ResultCollector.maskArr, noUnmaskedArr, mask_data_ok c hc hd,
        mask_arr_ok c hc tl]

theorem mask_obj_ok (c : ResultCollector) (hc : c.mask_sensitive = true) :
    ∀ kvs : JObj, noUnmaskedObj c (ResultCollector.maskObj c kvs) = true
  | .nil => rfl
  | .cons k v tl => by
      by_cases h : c.isSensitiveKey k
      · simp [ResultCollector.maskObj, noUnmaskedObj, h, mask_obj_ok c hc tl]
      · simp [ResultCollector.maskObj, noUnmaskedObj, h, mask_data_ok c hc v,
          mask_obj_ok c hc tl]

end

theorem maskTop_ok (c : ResultCollector) :
    ∀ kvs : JObj, topMaskOk c (ResultCollector.maskTopLevel c kvs) = true
  | .nil => rfl
  | .cons k v tl => by
      by_cases h : c.isSensitiveKey k
      · simp [ResultCollector.maskTopLevel, topMaskOk, h, maskTop_ok c tl]
      · simp [ResultCollector.maskTopLevel, topMaskOk, h, maskTop_ok c tl]

theorem mask_vars_ok (c : ResultCollector) (hc : c.mask_sensitive = true) :
    ∀ kvs : JObj, topMaskOk c (c._mask_variables kvs) = true := by
  intro kvs
  simp only [ResultCollector._mask_variables, hc]
  simpa using maskTop_ok c kvs

/-! ## Claim theorems -/

/-- Claim C1 — refuted by the code: `TestCaseExecutor._execute_step`
dispatches only `request` steps; for the one-step wait case of scenario S1
it raises `ValueError("Unsupported step type: wait")`, which propagates out
of `TestCaseExecutor.execute` (there is no handler), so no report and no
`statistics.passed_steps == 1` are produced — for every HTTP stub and every
clock reading. -/
theorem dispatch_rejects_wait_step :
    ∀ (performRequest : TestStep → Nat → Except PyError StepOutcome) (now0 now1 : Frac),
      TestCaseExecutor.execute performRequest now0 now1 s1TestCase =
        .error ⟨"ValueError", "Unsupported step type: wait"⟩ :=
  fun _ _ _ => rfl

/-- Claim C2, counterexample — a single step whose status is `"error"`
yields the aggregate status `"passed"`, not the `"failed"` the claim
requires, because `collect` counts only `"failure"` statuses as failed. -/
theorem collect_error_status_counts_as_passed :
    (ResultCollector.collect {} ⟨0, 1⟩ emptyTestCase [{ name := "s", status := "error" }]).status
      = "passed" ∧ "passed" ≠ "failed" :=
  ⟨rfl, by decide⟩

/-- Claim C2, amended — for every list of step results, `collect` reports
`"failed"` iff some step has status `"failure"` (a status of `"error"` does
not make the case failed), `"skipped"` iff every step is skipped (so also
on the empty list), and `"passed"` otherwise. -/
theorem collect_status_aggregation :
    ∀ (c : ResultCollector) (now : Frac) (tc : TestCase) (rs : List StepResult),
      (ResultCollector.collect c now tc rs).status =
        (if rs.any (fun sr => sr.status == "failure") then "failed"
         else if rs.all (fun sr => sr.status == "skipped") then "skipped"
         else "passed") := by
  intro c now tc rs
  simp only [ResultCollector.collect]
  by_cases hf : rs.any (fun sr => sr.status == "failure") = true
  · have h1 : 0 < rs.countP (fun sr => sr.status == "failure") := by
      rw [List.countP_pos_iff]
      simpa using List.any_eq_true.mp hf
    simp [h1, hf]
  · have h0 : rs.countP (fun sr => sr.status == "failure") = 0 := by
      rw [List.countP_eq_zero]
      intro a ha
      by_contra hcon
      exact hf (List.any_eq_true.mpr ⟨a, ha, by simpa using hcon⟩)
    by_cases hs : rs.all (fun sr => sr.status == "skipped") = true
    · have h2 : rs.countP (fun sr => sr.status == "skipped") = rs.length := by
        rw [List.countP_eq_length]
        exact List.all_eq_true.mp hs
      simp [h0, h2, hf, hs]
    · have h2 : rs.countP (fun sr => sr.status == "skipped") ≠ rs.length := by
        intro hcon
        exact hs (List.all_eq_true.mpr (List.countP_eq_length.mp hcon))
      simp [h0, h2, hf, hs]

/-- Claim C3 — the scenario-S6 conditional wait does raise `TimeoutError`
inside the attempt once `max_wait` elapses and the lifecycle does emit a
`failure` result, but `_create_error_info` categorises it as `system`, not
`timeout`: the categoriser looks for the substring `"timeout"` in the
exception message only, and the `TimeoutError` message (shown) does not
contain it. -/
theorem conditional_wait_timeout_categorised_system :
    WaitExecutor._execute_step s6Ctx s6Step ⟨2, 10⟩ =
      .error ⟨"TimeoutError", s6Message⟩ ∧
    s6Result.status = "failure" ∧
    s6Result.error_info.map ErrorInfo.category = some ErrorCategory.system ∧
    containsSub (pyLower s6Message) "timeout" = false ∧
    ErrorCategory.system ≠ ErrorCategory.timeout :=
  ⟨rfl, rfl, rfl, by decide, by decide⟩

/-- Claim C4, counterexample — a run whose single request step fails (the
server is unreachable) produces a report with `test_case.status ==
"failed"`, yet `main` returns 0, not the claimed 2: after
`execute_test_case` returns normally, `main` returns 0 without looking at
the result. -/
theorem cli_returns_zero_on_failed_case :
    (TestCaseExecutor.execute failingPerform ⟨0, 1⟩ ⟨0, 1⟩ c4TestCase).toOption.bind
        (getPath ["test_case", "status"]) = some (.str "failed") ∧
    Cli.main (.ok c4TestCase) failingPerform ⟨0, 1⟩ ⟨0, 1⟩ = 0 ∧
    (0 : Int) ≠ 2 :=
  ⟨rfl, rfl, by decide⟩

/-- Claim C4, amended — on the run/execute path `main` returns only 0 or 1:
0 exactly when parsing and execution both complete (regardless of the test
outcome recorded in the report), and 1 on every raised error — file errors,
parse errors, and unexpected internal errors alike; exit codes 2 and 3 are
never produced. -/
theorem cli_exit_codes_zero_or_one :
    ∀ (p : Except PyError TestCase)
      (performRequest : TestStep → Nat → Except PyError StepOutcome) (n0 n1 : Frac),
      Cli.main p performRequest n0 n1 =
        if (p.bind (TestCaseExecutor.execute performRequest n0 n1)).isOk then 0 else 1 := by
  intro p performRequest n0 n1
  cases p with
  | error e => simp [Cli.main, Except.bind, Except.isOk, Except.toBool]
  | ok tc =>
      cases h : TestCaseExecutor.execute performRequest n0 n1 tc with
      | error e => simp [Cli.main, Except.bind, h, Except.isOk, Except.toBool]
      | ok r => simp [Cli.main, Except.bind, h, Except.isOk, Except.toBool]

/-- Claim C5 — refuted by the code: lookup goes through
`getattr(Comparators, name)` and the membership comparators are defined as
`in_list`/`not_in_list`, so the catalogue names `in` and `not_in` raise
`ComparatorError` while `in_list`/`not_in_list` succeed; the remaining
eighteen catalogue names all resolve. -/
theorem get_comparator_in_not_in_unknown :
    get_comparator "in" = .error "Unknown comparator: in" ∧
    get_comparator "not_in" = .error "Unknown comparator: not_in" ∧
    get_comparator "in_list" = .ok .in_list ∧
    get_comparator "not_in_list" = .ok .not_in_list ∧
    (["eq", "ne", "gt", "lt", "ge", "le", "contains", "not_contains", "regex", "type",
      "length_eq", "length_gt", "length_lt", "is_empty", "is_null", "status_code",
      "exists", "between"].all (fun n => (get_comparator n).isOk)) = true :=
  ⟨rfl, rfl, rfl, rfl, rfl⟩

/-- Claim C6, counterexample — with masking enabled (the default collector),
the serialised report keeps the value `"x"` under the sensitive key
`password` nested one level inside `final_variables`, because variable
dumps are masked with the non-recursive `_mask_variables`. -/
theorem report_nested_variable_password_unmasked :
    ({} : ResultCollector).mask_sensitive = true ∧
    ResultCollector.isSensitiveKey {} "password" = true ∧
    getPath ["final_variables", "outer", "password"] nestedSecretReport = some (.str "x") ∧
    JValue.str "x" ≠ JValue.str "***" :=
  ⟨rfl, by decide, rfl, by intro h; injection h with h2; exact absurd h2 (by decide)⟩

/-- Claim C6, amended — when masking is enabled, response bodies are masked
recursively (`_mask_sensitive_data` leaves no sensitive key at any depth
with a value other than `"***"`), while variable dumps (`extracted_vars`
and `final_variables`) are masked by `_mask_variables` at the top level
only: every top-level sensitive key carries `"***"`, and deeper keys are
left as they were. -/
theorem masking_depth_by_section (c : ResultCollector) (hc : c.mask_sensitive = true) :
    (∀ v : JValue, noUnmaskedSensitive c (c._mask_sensitive_data v) = true) ∧
    (∀ kvs : JObj, topMaskOk c (c._mask_variables kvs) = true) :=
  ⟨mask_data_ok c hc, mask_vars_ok c hc⟩

/-- Witness for the amended C6 theorem at the default collector and a
concrete nested value. -/
theorem masking_depth_by_section_witness :
    ({} : ResultCollector).mask_sensitive = true ∧
    noUnmaskedSensitive {}
      (({} : ResultCollector)._mask_sensitive_data
        (.obj (.ofList [("token", .str "abc"),
                        ("a", .obj (.ofList [("password", .str "x")]))]))) = true :=
  ⟨rfl, (masking_depth_by_section {} rfl).1 _⟩

/-- Claim C7 — the `status_code` comparator on an `Nxx` wildcard holds
exactly when the leading decimal digit of the integer status code is `N`;
in particular, over the three-digit status codes, `"2xx"` holds exactly for
200 through 299. -/
theorem status_code_wildcard_leading_digit :
    (∀ d : Nat, d < 10 → ∀ n : Nat,
      (Comparators.status_code (JValue.int (n : Int))
          (.str ⟨[Nat.digitChar d, 'x', 'x']⟩) = true ↔ leadingDigit n = d)) ∧
    (∀ n : Nat, 100 ≤ n → n ≤ 999 →
      (Comparators.status_code (JValue.int (n : Int)) (.str "2xx") = true ↔
        200 ≤ n ∧ n ≤ 299)) := by
  constructor
  · exact fun d hd n => status_code_wildcard d hd n
  · intro n h1 h2
    have hs : ("2xx" : String) = ⟨[Nat.digitChar 2, 'x', 'x']⟩ := by decide
    rw [hs, status_code_wildcard 2 (by omega) n, leadingDigit_of_three_digits n h1 h2]
    omega

/-- Witness for C7: `"2xx"` accepts 204 and rejects 404. -/
theorem status_code_wildcard_witness :
    Comparators.status_code (JValue.int 204) (.str "2xx") = true ∧
    Comparators.status_code (JValue.int 404) (.str "2xx") = false :=
  ⟨(status_code_wildcard_leading_digit.2 204 (by decide) (by decide)).mpr (by decide),
   by
    have h := status_code_wildcard_leading_digit.2 404 (by decide) (by decide)
    revert h
    cases Comparators.status_code (JValue.int 404) (.str "2xx") <;> simp⟩

/-- Claim C8 — if a step's `depends_on` names `A` and the first recorded
result for `A` (if any) has a status other than `success`, the step
lifecycle emits a `skipped` result, and the step body is never run: the
emitted result is the same whatever the step's I/O would have done. -/
theorem dependency_gating_skips_step :
    ∀ (ctx : StepExecutorCtx) (step : TestStep)
      (previous_results : List StepResult) (A : String),
      A ∈ step.depends_on →
      (∀ r ∈ previous_results, r.name = A → r.status ≠ "success") →
      ∀ f g : Nat → Except PyError StepOutcome,
        (StepExecutor.execute ctx f step previous_results).1.status = "skipped" ∧
        StepExecutor.execute ctx f step previous_results =
          StepExecutor.execute ctx g step previous_results := by
  intro ctx step previous_results A hA hS f g
  have hdep : StepExecutor.depOk previous_results A = false := by
    unfold StepExecutor.depOk
    cases hfind : previous_results.find? (fun r => r.name == A) with
    | none => simp
    | some r =>
        have hname : r.name = A := by
          have := List.find?_some hfind
          simpa using this
        have hmem : r ∈ previous_results := List.mem_of_find?_eq_some hfind
        have := hS r hmem hname
        simpa using this
  have hall : step.depends_on.all (StepExecutor.depOk previous_results) = false := by
    rw [List.all_eq_false]
    exact ⟨A, hA, by simp [hdep]⟩
  have hshould : StepExecutor._should_execute ctx step previous_results = false := by
    simp [StepExecutor._should_execute, hall]
  constructor
  · simp [StepExecutor.execute, hshould]
  · simp [StepExecutor.execute, hshould]

/-- Witness for C8: step `B` depending on a failed `A` is skipped, for two
different step bodies. -/
theorem dependency_gating_witness :
    (StepExecutor.execute {} (fun _ => .error ⟨"E", "e"⟩) stepB [resultA]).1.status
      = "skipped" :=
  (dependency_gating_skips_step {} stepB [resultA] "A" (by decide)
    (by
      intro r hr hname
      simp only [List.mem_singleton] at hr
      subst hr
      decide)
    (fun _ => .error ⟨"E", "e"⟩) (fun _ => .ok {})).1

/-- Claim C9, counterexample — the string `"a\x7b% set x = 1 %\x7db"`
contains no `\x7b\x7b`, yet `render_string` does not return it unchanged:
the quick check also requires the absence of `\x7b%`, and the Jinja2 pass
renders the statement block away, yielding `"ab"`. -/
theorem render_string_statement_block_rendered :
    containsSub "a\x7b% set x = 1 %\x7db" "\x7b\x7b" = false ∧
    VariableManager.render_string {} (.str "a\x7b% set x = 1 %\x7db") = .str "ab" ∧
    JValue.str "ab" ≠ JValue.str "a\x7b% set x = 1 %\x7db" :=
  ⟨by decide, rfl, by intro h; injection h with h2; exact absurd h2 (by decide)⟩

/-- Claim C9, amended — `render_string` is the identity on every string
containing neither `\x7b\x7b` nor `\x7b%`, under every variable context,
and returns every non-string input unchanged. -/
theorem render_string_identity_on_plain_text :
    (∀ (m : VariableManager) (s : String),
      containsSub s "\x7b\x7b" = false → containsSub s "\x7b%" = false →
        m.render_string (.str s) = .str s) ∧
    (∀ (m : VariableManager) (v : JValue), isStrVal v = false → m.render_string v = v) := by
  constructor
  · intro m s h1 h2
    simp [VariableManager.render_string, h1, h2]
  · intro m v hv
    cases v <;> simp_all [VariableManager.render_string, isStrVal]

/-- Witness for the amended C9 theorem on a plain string and a number. -/
theorem render_string_identity_witness :
    VariableManager.render_string {} (.str "hello") = .str "hello" ∧
    VariableManager.render_string {} (.num ⟨3, 1⟩) = .num ⟨3, 1⟩ :=
  ⟨render_string_identity_on_plain_text.1 {} "hello" (by decide) (by decide),
   render_string_identity_on_plain_text.2 {} (.num ⟨3, 1⟩) (by decide)⟩

/-- Claim C10 — `collect` is total on the empty step list: status
`"skipped"`, all four counters 0, duration 0.0; and `to_v2_json` reports
`pass_rate` 0 because the division by `total_steps` is guarded, so the
empty test case serialises — whatever `datetime.now()` reads. -/
theorem collect_empty_step_list_total :
    ∀ now : Frac,
      (ResultCollector.collect {} now emptyTestCase []).status = "skipped" ∧
      (ResultCollector.collect {} now emptyTestCase []).total_steps = 0 ∧
      (ResultCollector.collect {} now emptyTestCase []).passed_steps = 0 ∧
      (ResultCollector.collect {} now emptyTestCase []).failed_steps = 0 ∧
      (ResultCollector.collect {} now emptyTestCase []).skipped_steps = 0 ∧
      (ResultCollector.collect {} now emptyTestCase []).duration = Frac.ofNat 0 ∧
      getPath ["statistics", "pass_rate"]
        (ResultCollector.to_v2_json {} (ResultCollector.collect {} now emptyTestCase [])) =
        some (.num (Frac.ofNat 0)) :=
  fun _ => ⟨rfl, rfl, rfl, rfl, rfl, rfl, rfl⟩

end ApisixProofs
